import Mathlib

/-
Verification of the alert decision core in `src/alert_optimizer.py`
(class `AlertOptimizer`): a shallow embedding of its state and methods,
followed by theorems about the evaluation gates, cooldown policy,
rate limiter, quality filter, priority classifier and statistics.

Python floats are modelled as rationals (ℚ), `time.time()` is an explicit
`now : ℚ` argument, and the `alert_history` dict is an association list
with Python-dict insert/lookup semantics.
-/

set_option linter.unusedVariables false

namespace CryptoAlert

/-- Mirrors `AlertPriority` (HIGH / MEDIUM / LOW). -/
inductive AlertPriority where
  | high
  | medium
  | low
deriving DecidableEq, Repr

/-- Mirrors `AlertType` (STRONG_BUY / WHALE / PUMP / VOLUME_SPIKE / PRICE_DROP / SENTIMENT). -/
inductive AlertType where
  | strong_buy
  | whale
  | pump
  | volume_spike
  | price_drop
  | sentiment
deriving DecidableEq, Repr

/-- The `.value` string of each `AlertType` enum member. -/
def AlertType.value : AlertType → String
  | .strong_buy => "STRONG_BUY"
  | .whale => "WHALE"
  | .pump => "PUMP"
  | .volume_spike => "VOLUME_SPIKE"
  | .price_drop => "PRICE_DROP"
  | .sentiment => "SENTIMENT"

/-- Mirrors `self.cooldown_config`: cooldown seconds per priority
(HIGH=1800, MEDIUM=3600, LOW=7200). -/
def cooldown_config : AlertPriority → ℚ
  | .high => 1800
  | .medium => 3600
  | .low => 7200

/-- The numeric fields of the `crypto_data` dict read by the optimizer
(`volume24h`, `marketCap`, `price`, `change24h`). -/
structure CryptoData where
  volume24h : ℚ
  marketCap : ℚ
  price : ℚ
  change24h : ℚ
deriving DecidableEq, Repr

/-- Mirrors the `AlertRecord` dataclass. -/
structure AlertRecord where
  coin_id : String
  alert_type : AlertType
  timestamp : ℚ
  price : ℚ
  priority : AlertPriority
deriving DecidableEq, Repr

/-- Mirrors the `self.stats` counter dict. -/
structure Stats where
  total_checks : Nat
  alerts_sent : Nat
  alerts_blocked_cooldown : Nat
  alerts_blocked_filters : Nat
  alerts_blocked_rate_limit : Nat
deriving DecidableEq, Repr

/-- The mutable state of one `AlertOptimizer` instance: the cooldown
history dict (as an association list in dict order), the rate-limiting
timestamp list, the counters, and the configuration set in `__init__`. -/
structure AlertOptimizer where
  alert_history : List (String × AlertRecord)
  alerts_sent_minute : List ℚ
  stats : Stats
  min_volume_24h : ℚ
  min_market_cap : ℚ
  max_alerts_per_minute : Nat
deriving DecidableEq, Repr

/-- The state built by `AlertOptimizer.__init__`. -/
def AlertOptimizer.init : AlertOptimizer :=
  { alert_history := []
    alerts_sent_minute := []
    stats := ⟨0, 0, 0, 0, 0⟩
    min_volume_24h := 1000000
    min_market_cap := 10000000
    max_alerts_per_minute := 5 }

/-- The cooldown key `f"{coin_id}_{alert_type.value}"`. -/
def alert_key (coin_id : String) (alert_type : AlertType) : String :=
  coin_id ++ "_" ++ alert_type.value

/-- Python-dict lookup on the association list (keys are unique in dict
order, so first match is the entry). -/
def dictLookup (k : String) : List (String × AlertRecord) → Option AlertRecord
  | [] => none
  | (k', v) :: rest => if k' = k then some v else dictLookup k rest

/-- Python-dict assignment `d[k] = v`: overwrite in place if the key is
present, else append at the end. -/
def dictInsert (k : String) (v : AlertRecord) :
    List (String × AlertRecord) → List (String × AlertRecord)
  | [] => [(k, v)]
  | (k', v') :: rest =>
      if k' = k then (k, v) :: rest else (k', v') :: dictInsert k v rest

/-- The distinct reason strings returned by `should_send_alert` and
`_check_filters`, with the interpolated values carried structurally:
`cooldownActive` carries the remaining minutes (`remaining/60`). -/
inductive Reason where
  | rateLimit
  | lowVolume (volume : ℚ)
  | lowMarketCap (marketCap : ℚ)
  | invalidPrice
  | cooldownActive (remainingMinutes : ℚ)
  | approved
deriving DecidableEq, Repr

/-- Mirrors `_check_rate_limit`: prune timestamps with `now - t < 60`
false, then compare the retained count with the maximum. Returns the
state (the prune is a mutation of `self.alerts_sent_minute`) and the
boolean gate result. -/
def check_rate_limit (s : AlertOptimizer) (now : ℚ) : AlertOptimizer × Bool :=
  let pruned := s.alerts_sent_minute.filter (fun t => now - t < 60)
  ({ s with alerts_sent_minute := pruned },
   pruned.length < s.max_alerts_per_minute)

/-- Mirrors `_check_filters`: volume, then market cap, then price, first
failure wins; `none` means all filters pass. -/
def check_filters (s : AlertOptimizer) (d : CryptoData) : Option Reason :=
  if d.volume24h < s.min_volume_24h then some (.lowVolume d.volume24h)
  else if d.marketCap < s.min_market_cap then some (.lowMarketCap d.marketCap)
  else if d.price ≤ 0 then some .invalidPrice
  else none

/-- The cooldown test inside `should_send_alert`, step 3: look up the key;
if a record exists and `now - record.timestamp < cooldown_config[record.priority]`
return the remaining seconds, else `none`. -/
def cooldown_remaining (s : AlertOptimizer) (now : ℚ) (key : String) : Option ℚ :=
  match dictLookup key s.alert_history with
  | none => none
  | some rec =>
      let cd := cooldown_config rec.priority
      let since := now - rec.timestamp
      if since < cd then some (cd - since) else none

/-- Mirrors `should_send_alert`: bump `total_checks`, then rate limit,
then filters, then per-key cooldown, short-circuiting; the `priority`
argument is accepted but (as in the source, where the HIGH branch is
`pass`) never consulted. Returns the new state and `(should_send, reason)`. -/
def should_send_alert (s0 : AlertOptimizer) (now : ℚ) (coin_id : String)
    (alert_type : AlertType) (crypto_data : CryptoData)
    (priority : AlertPriority) : AlertOptimizer × Bool × Reason :=
  let s1 := { s0 with stats := { s0.stats with total_checks := s0.stats.total_checks + 1 } }
  let rl := check_rate_limit s1 now
  let s2 := rl.1
  if rl.2 = false then
    ({ s2 with stats := { s2.stats with
        alerts_blocked_rate_limit := s2.stats.alerts_blocked_rate_limit + 1 } },
     false, .rateLimit)
  else
    match check_filters s2 crypto_data with
    | some r =>
        ({ s2 with stats := { s2.stats with
            alerts_blocked_filters := s2.stats.alerts_blocked_filters + 1 } },
         false, r)
    | none =>
        match cooldown_remaining s2 now (alert_key coin_id alert_type) with
        | some remaining =>
            ({ s2 with stats := { s2.stats with
                alerts_blocked_cooldown := s2.stats.alerts_blocked_cooldown + 1 } },
             false, .cooldownActive (remaining / 60))
        | none => (s2, true, .approved)

/-- Mirrors `record_alert`: write the `AlertRecord` under the key, bump
`alerts_sent`, and append `now` to the rate window (`_track_rate_limit`). -/
def record_alert (s : AlertOptimizer) (now : ℚ) (coin_id : String)
    (alert_type : AlertType) (price : ℚ) (priority : AlertPriority) :
    AlertOptimizer :=
  { s with
    alert_history := dictInsert (alert_key coin_id alert_type)
      ⟨coin_id, alert_type, now, price, priority⟩ s.alert_history
    stats := { s.stats with alerts_sent := s.stats.alerts_sent + 1 }
    alerts_sent_minute := s.alerts_sent_minute ++ [now] }

/-- Mirrors `cleanup_old_alerts`: keep exactly the records with
`record.timestamp > now - max_age_hours*3600`. -/
def cleanup_old_alerts (s : AlertOptimizer) (now : ℚ) (max_age_hours : ℚ) :
    AlertOptimizer :=
  let cutoff_time := now - max_age_hours * 3600
  { s with alert_history :=
      s.alert_history.filter (fun kv => cutoff_time < kv.2.timestamp) }

/-- The dict returned by `get_stats`: the five counters plus
`active_cooldowns` and `success_rate`. -/
structure StatsReport where
  total_checks : Nat
  alerts_sent : Nat
  alerts_blocked_cooldown : Nat
  alerts_blocked_filters : Nat
  alerts_blocked_rate_limit : Nat
  active_cooldowns : Nat
  success_rate : ℚ
deriving DecidableEq, Repr

/-- Mirrors `get_stats`: `active_cooldowns = len(alert_history)` and
`success_rate = alerts_sent / total_checks * 100` when `total_checks > 0`,
else `0`. -/
def get_stats (s : AlertOptimizer) : StatsReport :=
  { total_checks := s.stats.total_checks
    alerts_sent := s.stats.alerts_sent
    alerts_blocked_cooldown := s.stats.alerts_blocked_cooldown
    alerts_blocked_filters := s.stats.alerts_blocked_filters
    alerts_blocked_rate_limit := s.stats.alerts_blocked_rate_limit
    active_cooldowns := s.alert_history.length
    success_rate :=
      if 0 < s.stats.total_checks then
        (s.stats.alerts_sent : ℚ) / (s.stats.total_checks : ℚ) * 100
      else 0 }

/-- Mirrors `reset_stats`: zero all five counters. -/
def reset_stats (s : AlertOptimizer) : AlertOptimizer :=
  { s with stats := ⟨0, 0, 0, 0, 0⟩ }

/-- Mirrors `get_priority`: ordered rules, first match wins, on
`abs change24h` and `marketCap` (it reads no instance state). -/
def get_priority (alert_type : AlertType) (d : CryptoData) : AlertPriority :=
  let change_24h := |d.change24h|
  if alert_type = .whale then .high
  else if alert_type = .pump ∧ change_24h > 100 then .high
  else if alert_type = .strong_buy ∧ d.marketCap > 1000000000 then .high
  else if alert_type = .strong_buy then .medium
  else if alert_type = .pump ∧ change_24h > 50 then .medium
  else if alert_type = .volume_spike then .medium
  else .low

/-- One engine operation, for reasoning about call sequences. -/
inductive Op where
  | eval (now : ℚ) (coin_id : String) (alert_type : AlertType)
      (crypto_data : CryptoData) (priority : AlertPriority)
  | commit (now : ℚ) (coin_id : String) (alert_type : AlertType)
      (price : ℚ) (priority : AlertPriority)
  | sweep (now : ℚ) (max_age_hours : ℚ)
  | reset

/-- Run one operation; the `Nat` accumulator counts evaluate calls that
returned approved since the last reset. -/
def stepOp : AlertOptimizer × Nat → Op → AlertOptimizer × Nat
  | (s, a), .eval now c ty d p =>
      let r := should_send_alert s now c ty d p
      (r.1, if r.2.1 then a + 1 else a)
  | (s, a), .commit now c ty pr p => (record_alert s now c ty pr p, a)
  | (s, a), .sweep now h => (cleanup_old_alerts s now h, a)
  | (s, _), .reset => (reset_stats s, 0)

/-- Run a sequence of operations from a state, counting approved
evaluations since the last reset. -/
def runOps (s : AlertOptimizer) (ops : List Op) : AlertOptimizer × Nat :=
  ops.foldl stepOp (s, 0)

/-- The timestamps retained by the trailing 60-second window at `now`
(the list `_check_rate_limit` keeps). -/
def rateWindow (s : AlertOptimizer) (now : ℚ) : List ℚ :=
  s.alerts_sent_minute.filter (fun t => now - t < 60)

lemma check_filters_state_irrel (s : AlertOptimizer) (st : Stats) (w : List ℚ)
    (d : CryptoData) :
    check_filters { s with stats := st, alerts_sent_minute := w } d =
      check_filters s d := rfl

lemma cooldown_remaining_state_irrel (s : AlertOptimizer) (st : Stats) (w : List ℚ)
    (now : ℚ) (k : String) :
    cooldown_remaining { s with stats := st, alerts_sent_minute := w } now k =
      cooldown_remaining s now k := rfl

lemma dictLookup_dictInsert (k : String) (v : AlertRecord) :
    ∀ l : List (String × AlertRecord), dictLookup k (dictInsert k v l) = some v := by
  intro l
  induction l with
  | nil => simp [dictInsert, dictLookup]
  | cons kv rest ih =>
      by_cases h : kv.1 = k
      · simp [dictInsert, dictLookup, h]
      · simp [dictInsert, dictLookup, h, ih]

/-- C3: the rate limiter admits iff strictly fewer than the configured
maximum timestamps are younger than 60 seconds; admission prunes every
timestamp aged 60s or more before counting; with the maximum number of
timestamps all inside the window the next admit refuses; once every
recorded timestamp is 60s old or older, admit succeeds again. -/
theorem rate_limiter_window (s : AlertOptimizer) (now : ℚ) :
    ((check_rate_limit s now).2 = true ↔
      s.alerts_sent_minute.countP (fun t => decide (now - t < 60)) <
        s.max_alerts_per_minute)
  ∧ ((check_rate_limit s now).1.alerts_sent_minute = rateWindow s now)
  ∧ (s.alerts_sent_minute.length = s.max_alerts_per_minute →
      (∀ t ∈ s.alerts_sent_minute, now - t < 60) →
      (check_rate_limit s now).2 = false)
  ∧ (0 < s.max_alerts_per_minute →
      (∀ t ∈ s.alerts_sent_minute, 60 ≤ now - t) →
      (check_rate_limit s now).2 = true)
  ∧ AlertOptimizer.init.max_alerts_per_minute = 5 := by
  refine ⟨?_, rfl, ?_, ?_, rfl⟩
  · simp [check_rate_limit, List.countP_eq_length_filter]
  · intro hlen hall
    have hfilter : s.alerts_sent_minute.filter (fun t => now - t < 60) =
        s.alerts_sent_minute := by
      apply List.filter_eq_self.mpr
      intro a ha
      simpa using hall a ha
    simp [check_rate_limit, hfilter, hlen]
  · intro hpos hall
    have hfilter : s.alerts_sent_minute.filter (fun t => now - t < 60) = [] := by
      apply List.filter_eq_nil_iff.mpr
      intro a ha
      simpa using not_lt.mpr (hall a ha)
    simp [check_rate_limit, hfilter, hpos]

/-- C3 witness: at the default configuration, five in-window timestamps
refuse the next dispatch, and a fully aged-out window admits again. -/
theorem rate_limiter_window_witness :
    (check_rate_limit
        { AlertOptimizer.init with alerts_sent_minute := [0, 1, 2, 3, 4] } 30).2 = false
  ∧ (check_rate_limit
        { AlertOptimizer.init with alerts_sent_minute := [0, 1, 2, 3, 4] } 70).2 = true :=
  ⟨(rate_limiter_window _ 30).2.2.1 (by decide)
      (by intro t ht; fin_cases ht <;> norm_num),
   (rate_limiter_window _ 70).2.2.2.1 (by decide)
      (by intro t ht; fin_cases ht <;> norm_num)⟩

/-- C4: the quality filter tests volume, then market capitalization, then
price, returning on the first failing threshold with a reason naming it;
low volume fails with a volume reason regardless of all other fields; the
filter passes iff all three checks pass; the default thresholds are
1,000,000 volume and 10,000,000 capitalization with strictly positive
price. -/
theorem quality_filter_order (s : AlertOptimizer) (d : CryptoData) :
    (d.volume24h < s.min_volume_24h →
      check_filters s d = some (.lowVolume d.volume24h))
  ∧ (¬ d.volume24h < s.min_volume_24h → d.marketCap < s.min_market_cap →
      check_filters s d = some (.lowMarketCap d.marketCap))
  ∧ (¬ d.volume24h < s.min_volume_24h → ¬ d.marketCap < s.min_market_cap →
      d.price ≤ 0 → check_filters s d = some .invalidPrice)
  ∧ (check_filters s d = none ↔
      s.min_volume_24h ≤ d.volume24h ∧ s.min_market_cap ≤ d.marketCap ∧ 0 < d.price)
  ∧ AlertOptimizer.init.min_volume_24h = 1000000
  ∧ AlertOptimizer.init.min_market_cap = 10000000 := by
  refine ⟨?_, ?_, ?_, ?_, rfl, rfl⟩
  · intro h; simp [check_filters, h]
  · intro h1 h2; simp [check_filters, h1, h2]
  · intro h1 h2 h3; simp [check_filters, h1, h2, h3]
  · constructor
    · intro h
      by_cases h1 : d.volume24h < s.min_volume_24h
      · simp [check_filters, h1] at h
      · by_cases h2 : d.marketCap < s.min_market_cap
        · simp [check_filters, h1, h2] at h
        · by_cases h3 : d.price ≤ 0
          · simp [check_filters, h1, h2, h3] at h
          · exact ⟨not_lt.mp h1, not_lt.mp h2, not_le.mp h3⟩
    · rintro ⟨h1, h2, h3⟩
      simp [check_filters, not_lt.mpr h1, not_lt.mpr h2, not_le.mpr h3]

/-- C4 witness: a snapshot with volume 500 below the default threshold
fails with the volume reason even with a huge market cap and valid price. -/
theorem quality_filter_order_witness :
    ((500 : ℚ) < AlertOptimizer.init.min_volume_24h)
  ∧ check_filters AlertOptimizer.init ⟨500, 2000000000, 3, 0⟩ =
      some (.lowVolume 500) :=
  ⟨by decide, (quality_filter_order AlertOptimizer.init ⟨500, 2000000000, 3, 0⟩).1
    (by decide)⟩

/-- C5: the priority classifier applies its ordered rules first-match-wins
(WhaleActivity high; Pump with big change high then medium; StrongBuy high
for huge caps else medium; VolumeSpike medium; everything else low),
including the concrete example classifications of the spec. -/
theorem priority_classifier_rules (d : CryptoData) :
    (get_priority .whale d = .high)
  ∧ (100 < |d.change24h| → get_priority .pump d = .high)
  ∧ (1000000000 < d.marketCap → get_priority .strong_buy d = .high)
  ∧ (¬ 1000000000 < d.marketCap → get_priority .strong_buy d = .medium)
  ∧ (¬ 100 < |d.change24h| → 50 < |d.change24h| → get_priority .pump d = .medium)
  ∧ (get_priority .volume_spike d = .medium)
  ∧ (¬ 50 < |d.change24h| → get_priority .pump d = .low)
  ∧ (get_priority .price_drop d = .low)
  ∧ (get_priority .sentiment d = .low)
  ∧ (d.change24h = 75 → get_priority .pump d = .medium)
  ∧ (d.change24h = 150 → get_priority .pump d = .high)
  ∧ (d.marketCap = 2000000000 → get_priority .strong_buy d = .high)
  ∧ (d.marketCap = 500000 → get_priority .strong_buy d = .medium) := by
  have habs : ∀ q : ℚ, (50 : ℚ) < 100 → ¬ 100 < |q| → 50 < |q| → 50 < |q| := by
    intro q _ _ h; exact h
  refine ⟨by simp [get_priority], ?_, ?_, ?_, ?_, by simp [get_priority], ?_,
    by simp [get_priority], by simp [get_priority], ?_, ?_, ?_, ?_⟩
  · intro h; simp [get_priority, h]
  · intro h; simp [get_priority, h]
  · intro h; simp [get_priority, h]
  · intro h1 h2; simp [get_priority, h1, h2]
  · intro h
    have h1 : ¬ 100 < |d.change24h| := fun hc => h (lt_trans (by norm_num) hc)
    simp [get_priority, h, h1]
  · intro h
    have h1 : ¬ 100 < |d.change24h| := by rw [h]; norm_num
    have h2 : 50 < |d.change24h| := by rw [h]; norm_num
    simp [get_priority, h1, h2]
  · intro h
    have h1 : 100 < |d.change24h| := by rw [h]; norm_num
    simp [get_priority, h1]
  · intro h
    have h1 : (1000000000 : ℚ) < d.marketCap := by rw [h]; norm_num
    simp [get_priority, h1]
  · intro h
    have h1 : ¬ (1000000000 : ℚ) < d.marketCap := by rw [h]; norm_num
    simp [get_priority, h1]

/-- C5 witness: the spec's concrete classifications hold on explicit
snapshots. -/
theorem priority_classifier_rules_witness :
    get_priority .pump ⟨5000000, 200000000, 1, 75⟩ = .medium
  ∧ get_priority .pump ⟨5000000, 200000000, 1, 150⟩ = .high
  ∧ get_priority .strong_buy ⟨5000000, 2000000000, 1, 0⟩ = .high
  ∧ get_priority .strong_buy ⟨5000000, 500000, 1, 0⟩ = .medium :=
  ⟨(priority_classifier_rules ⟨5000000, 200000000, 1, 75⟩).2.2.2.2.2.2.2.2.2.1 rfl,
   (priority_classifier_rules ⟨5000000, 200000000, 1, 150⟩).2.2.2.2.2.2.2.2.2.2.1 rfl,
   (priority_classifier_rules ⟨5000000, 2000000000, 1, 0⟩).2.2.2.2.2.2.2.2.2.2.2.1 rfl,
   (priority_classifier_rules ⟨5000000, 500000, 1, 0⟩).2.2.2.2.2.2.2.2.2.2.2.2 rfl⟩

lemma should_send_rate_blocked (s : AlertOptimizer) (now : ℚ) (c : String)
    (ty : AlertType) (d : CryptoData) (p : AlertPriority)
    (h : ¬ (rateWindow s now).length < s.max_alerts_per_minute) :
    should_send_alert s now c ty d p =
      ({ s with alerts_sent_minute := rateWindow s now
                stats := { s.stats with
                  total_checks := s.stats.total_checks + 1
                  alerts_blocked_rate_limit := s.stats.alerts_blocked_rate_limit + 1 } },
       false, .rateLimit) := by
  rw [rateWindow] at h
  simp [should_send_alert, check_rate_limit, rateWindow, h]

lemma should_send_filter_blocked (s : AlertOptimizer) (now : ℚ) (c : String)
    (ty : AlertType) (d : CryptoData) (p : AlertPriority) (r : Reason)
    (h1 : (rateWindow s now).length < s.max_alerts_per_minute)
    (h2 : check_filters s d = some r) :
    should_send_alert s now c ty d p =
      ({ s with alerts_sent_minute := rateWindow s now
                stats := { s.stats with
                  total_checks := s.stats.total_checks + 1
                  alerts_blocked_filters := s.stats.alerts_blocked_filters + 1 } },
       false, r) := by
  rw [rateWindow] at h1
  simp [should_send_alert, check_rate_limit, rateWindow, h1,
    check_filters_state_irrel, h2]

lemma should_send_cooldown_blocked (s : AlertOptimizer) (now : ℚ) (c : String)
    (ty : AlertType) (d : CryptoData) (p : AlertPriority) (rem : ℚ)
    (h1 : (rateWindow s now).length < s.max_alerts_per_minute)
    (h2 : check_filters s d = none)
    (h3 : cooldown_remaining s now (alert_key c ty) = some rem) :
    should_send_alert s now c ty d p =
      ({ s with alerts_sent_minute := rateWindow s now
                stats := { s.stats with
                  total_checks := s.stats.total_checks + 1
                  alerts_blocked_cooldown := s.stats.alerts_blocked_cooldown + 1 } },
       false, .cooldownActive (rem / 60)) := by
  rw [rateWindow] at h1
  simp [should_send_alert, check_rate_limit, rateWindow, h1,
    check_filters_state_irrel, h2, cooldown_remaining_state_irrel, h3]

lemma should_send_approved (s : AlertOptimizer) (now : ℚ) (c : String)
    (ty : AlertType) (d : CryptoData) (p : AlertPriority)
    (h1 : (rateWindow s now).length < s.max_alerts_per_minute)
    (h2 : check_filters s d = none)
    (h3 : cooldown_remaining s now (alert_key c ty) = none) :
    should_send_alert s now c ty d p =
      ({ s with alerts_sent_minute := rateWindow s now
                stats := { s.stats with
                  total_checks := s.stats.total_checks + 1 } },
       true, .approved) := by
  rw [rateWindow] at h1
  simp [should_send_alert, check_rate_limit, rateWindow, h1,
    check_filters_state_irrel, h2, cooldown_remaining_state_irrel, h3]

/-- C1: every evaluation bumps the total counter first and then runs the
gates in the order rate limit, quality filter, cooldown, short-circuiting
on the first refusal: a rate refusal bumps only the rate-blocked counter
and returns the rate-limit reason; a filter failure bumps only the
filter-blocked counter and returns the filter's reason; an active
cooldown bumps only the cooldown-blocked counter and returns the
remaining minutes; and when all gates pass the decision is approved with
no blocked counter touched. -/
theorem gate_order_contract (s : AlertOptimizer) (now : ℚ) (c : String)
    (ty : AlertType) (d : CryptoData) (p : AlertPriority) :
    ((should_send_alert s now c ty d p).1.stats.total_checks =
        s.stats.total_checks + 1)
  ∧ (¬ (rateWindow s now).length < s.max_alerts_per_minute →
      (should_send_alert s now c ty d p).2 = (false, .rateLimit)
      ∧ (should_send_alert s now c ty d p).1.stats =
          { s.stats with
            total_checks := s.stats.total_checks + 1
            alerts_blocked_rate_limit := s.stats.alerts_blocked_rate_limit + 1 }
      ∧ (should_send_alert s now c ty d p).1.alert_history = s.alert_history)
  ∧ ((rateWindow s now).length < s.max_alerts_per_minute →
      ∀ r, check_filters s d = some r →
      (should_send_alert s now c ty d p).2 = (false, r)
      ∧ (should_send_alert s now c ty d p).1.stats =
          { s.stats with
            total_checks := s.stats.total_checks + 1
            alerts_blocked_filters := s.stats.alerts_blocked_filters + 1 }
      ∧ (should_send_alert s now c ty d p).1.alert_history = s.alert_history)
  ∧ ((rateWindow s now).length < s.max_alerts_per_minute →
      check_filters s d = none →
      ∀ rem, cooldown_remaining s now (alert_key c ty) = some rem →
      (should_send_alert s now c ty d p).2 = (false, .cooldownActive (rem / 60))
      ∧ (should_send_alert s now c ty d p).1.stats =
          { s.stats with
            total_checks := s.stats.total_checks + 1
            alerts_blocked_cooldown := s.stats.alerts_blocked_cooldown + 1 }
      ∧ (should_send_alert s now c ty d p).1.alert_history = s.alert_history)
  ∧ ((rateWindow s now).length < s.max_alerts_per_minute →
      check_filters s d = none →
      cooldown_remaining s now (alert_key c ty) = none →
      (should_send_alert s now c ty d p).2 = (true, .approved)
      ∧ (should_send_alert s now c ty d p).1.stats =
          { s.stats with total_checks := s.stats.total_checks + 1 }
      ∧ (should_send_alert s now c ty d p).1.alert_history = s.alert_history) := by
  refine ⟨?_, ?_, ?_, ?_, ?_⟩
  · by_cases h1 : (rateWindow s now).length < s.max_alerts_per_minute
    · rcases hcf : check_filters s d with _ | r
      · rcases hcd : cooldown_remaining s now (alert_key c ty) with _ | rem
        · rw [should_send_approved s now c ty d p h1 hcf hcd]
        · rw [should_send_cooldown_blocked s now c ty d p rem h1 hcf hcd]
      · rw [should_send_filter_blocked s now c ty d p r h1 hcf]
    · rw [should_send_rate_blocked s now c ty d p h1]
  · intro h1
    rw [should_send_rate_blocked s now c ty d p h1]
    exact ⟨rfl, rfl, rfl⟩
  · intro h1 r h2
    rw [should_send_filter_blocked s now c ty d p r h1 h2]
    exact ⟨rfl, rfl, rfl⟩
  · intro h1 h2 rem h3
    rw [should_send_cooldown_blocked s now c ty d p rem h1 h2 h3]
    exact ⟨rfl, rfl, rfl⟩
  · intro h1 h2 h3
    rw [should_send_approved s now c ty d p h1 h2 h3]
    exact ⟨rfl, rfl, rfl⟩

/-- C1 witness: from the fresh engine a passing snapshot is approved with
no blocked counter touched, and a low-volume snapshot is refused by the
quality filter with the volume reason. -/
theorem gate_order_contract_witness :
    ((rateWindow AlertOptimizer.init 0).length <
        AlertOptimizer.init.max_alerts_per_minute)
  ∧ (should_send_alert AlertOptimizer.init 0 "alpha" .pump
        ⟨5000000, 200000000, 2, 60⟩ .medium).2 = (true, .approved)
  ∧ (should_send_alert AlertOptimizer.init 0 "alpha" .pump
        ⟨500, 200000000, 2, 60⟩ .medium).2 = (false, .lowVolume 500) :=
  ⟨by decide,
   ((gate_order_contract AlertOptimizer.init 0 "alpha" .pump
      ⟨5000000, 200000000, 2, 60⟩ .medium).2.2.2.2 (by decide) (by decide)
      (by decide)).1,
   ((gate_order_contract AlertOptimizer.init 0 "alpha" .pump
      ⟨500, 200000000, 2, 60⟩ .medium).2.2.1 (by decide) (.lowVolume 500)
      (by decide)).1⟩

/-- C6: the decision, reason and resulting state of `should_send_alert`
are identical for every value of the caller-supplied priority hint: the
hint cannot bypass the rate limiter, the quality filter or the cooldown
gate. -/
theorem priority_hint_noninterference (s : AlertOptimizer) (now : ℚ)
    (coin_id : String) (alert_type : AlertType) (crypto_data : CryptoData)
    (p1 p2 : AlertPriority) :
    should_send_alert s now coin_id alert_type crypto_data p1 =
      should_send_alert s now coin_id alert_type crypto_data p2 := rfl

/-- C2: when evaluation reaches the cooldown gate, it is cooldown-blocked
iff a stored record for the key exists whose age is strictly below the
cooldown duration of the stored record's own priority (1800/3600/7200
seconds for high/medium/low); without a stored record the decision is
approved; and a commit overwrites the stored record, so its priority
drives all subsequent checks. -/
theorem cooldown_policy (s : AlertOptimizer) (now : ℚ) (c : String)
    (ty : AlertType) (d : CryptoData) (p : AlertPriority)
    (h1 : (rateWindow s now).length < s.max_alerts_per_minute)
    (h2 : check_filters s d = none) :
    ((∃ m, (should_send_alert s now c ty d p).2.2 = .cooldownActive m) ↔
      ∃ rec, dictLookup (alert_key c ty) s.alert_history = some rec ∧
        now - rec.timestamp < cooldown_config rec.priority)
  ∧ (dictLookup (alert_key c ty) s.alert_history = none →
      (should_send_alert s now c ty d p).2 = (true, .approved))
  ∧ (∀ now' price p', dictLookup (alert_key c ty)
      (record_alert s now' c ty price p').alert_history =
        some ⟨c, ty, now', price, p'⟩)
  ∧ cooldown_config .high = 1800
  ∧ cooldown_config .medium = 3600
  ∧ cooldown_config .low = 7200 := by
  refine ⟨⟨?_, ?_⟩, ?_, ?_, rfl, rfl, rfl⟩
  · rintro ⟨m, hm⟩
    rcases hlk : dictLookup (alert_key c ty) s.alert_history with _ | rec
    · have hcd : cooldown_remaining s now (alert_key c ty) = none := by
        simp [cooldown_remaining, hlk]
      rw [should_send_approved s now c ty d p h1 h2 hcd] at hm
      simp at hm
    · by_cases hlt : now - rec.timestamp < cooldown_config rec.priority
      · exact ⟨rec, rfl, hlt⟩
      · have hcd : cooldown_remaining s now (alert_key c ty) = none := by
          simp [cooldown_remaining, hlk, hlt]
        rw [should_send_approved s now c ty d p h1 h2 hcd] at hm
        simp at hm
  · rintro ⟨rec, hlk, hlt⟩
    have hcd : cooldown_remaining s now (alert_key c ty) =
        some (cooldown_config rec.priority - (now - rec.timestamp)) := by
      simp [cooldown_remaining, hlk, hlt]
    rw [should_send_cooldown_blocked s now c ty d p _ h1 h2 hcd]
    exact ⟨_, rfl⟩
  · intro hlk
    have hcd : cooldown_remaining s now (alert_key c ty) = none := by
      simp [cooldown_remaining, hlk]
    rw [should_send_approved s now c ty d p h1 h2 hcd]
  · intro now' price p'
    simp [record_alert, dictLookup_dictInsert]

/-- C2 witness: with a committed high-priority record of timestamp 0 for
the key, an evaluation at time 100 (inside the 1800s window) is
cooldown-blocked. -/
theorem cooldown_policy_witness :
    ∃ m, (should_send_alert
      { AlertOptimizer.init with
          alert_history := [("alpha_PUMP", ⟨"alpha", .pump, 0, 1, .high⟩)] }
      100 "alpha" .pump ⟨5000000, 200000000, 2, 60⟩ .medium).2.2 =
        .cooldownActive m :=
  ((cooldown_policy _ 100 "alpha" .pump ⟨5000000, 200000000, 2, 60⟩ .medium
      (by decide) (by decide)).1).mpr
    ⟨⟨"alpha", .pump, 0, 1, .high⟩, by decide, by norm_num [cooldown_config]⟩

lemma should_send_history_eq (s : AlertOptimizer) (now : ℚ) (c : String)
    (ty : AlertType) (d : CryptoData) (p : AlertPriority) :
    (should_send_alert s now c ty d p).1.alert_history = s.alert_history := by
  by_cases hr : (rateWindow s now).length < s.max_alerts_per_minute
  · rcases hcf : check_filters s d with _ | r
    · rcases hcd : cooldown_remaining s now (alert_key c ty) with _ | rem
      · rw [should_send_approved s now c ty d p hr hcf hcd]
      · rw [should_send_cooldown_blocked s now c ty d p rem hr hcf hcd]
    · rw [should_send_filter_blocked s now c ty d p r hr hcf]
  · rw [should_send_rate_blocked s now c ty d p hr]

lemma should_send_window_eq (s : AlertOptimizer) (now : ℚ) (c : String)
    (ty : AlertType) (d : CryptoData) (p : AlertPriority) :
    (should_send_alert s now c ty d p).1.alerts_sent_minute = rateWindow s now := by
  by_cases hr : (rateWindow s now).length < s.max_alerts_per_minute
  · rcases hcf : check_filters s d with _ | r
    · rcases hcd : cooldown_remaining s now (alert_key c ty) with _ | rem
      · rw [should_send_approved s now c ty d p hr hcf hcd]
      · rw [should_send_cooldown_blocked s now c ty d p rem hr hcf hcd]
    · rw [should_send_filter_blocked s now c ty d p r hr hcf]
  · rw [should_send_rate_blocked s now c ty d p hr]

lemma check_filters_reason_shape (s : AlertOptimizer) (d : CryptoData)
    (r : Reason) (h : check_filters s d = some r) :
    r = .lowVolume d.volume24h ∨ r = .lowMarketCap d.marketCap ∨
      r = .invalidPrice := by
  by_cases h1 : d.volume24h < s.min_volume_24h
  · simp [check_filters, h1] at h; exact Or.inl h.symm
  · by_cases h2 : d.marketCap < s.min_market_cap
    · simp [check_filters, h1, h2] at h; exact Or.inr (Or.inl h.symm)
    · by_cases h3 : d.price ≤ 0
      · simp [check_filters, h1, h2, h3] at h; exact Or.inr (Or.inr h.symm)
      · simp [check_filters, h1, h2, h3] at h

/-- C7: evaluation alone never commits: it leaves the cooldown store
(hence `active_cooldowns`) and the in-window rate timestamps unchanged;
only `record_alert` writes the record and appends a rate timestamp; and
with no committed record for a key, two evaluations without an
intervening commit never produce a cooldown reason on the second call. -/
theorem evaluate_commit_frame (s : AlertOptimizer) (now now2 : ℚ) (c : String)
    (ty : AlertType) (d d2 : CryptoData) (p p2 : AlertPriority) (price : ℚ) :
    ((should_send_alert s now c ty d p).1.alert_history = s.alert_history)
  ∧ ((get_stats (should_send_alert s now c ty d p).1).active_cooldowns =
      (get_stats s).active_cooldowns)
  ∧ (rateWindow (should_send_alert s now c ty d p).1 now = rateWindow s now)
  ∧ ((record_alert s now c ty price p).alert_history =
      dictInsert (alert_key c ty) ⟨c, ty, now, price, p⟩ s.alert_history)
  ∧ ((record_alert s now c ty price p).alerts_sent_minute =
      s.alerts_sent_minute ++ [now])
  ∧ (dictLookup (alert_key c ty) s.alert_history = none →
      ∀ m, (should_send_alert (should_send_alert s now c ty d p).1 now2 c ty
        d2 p2).2.2 ≠ .cooldownActive m) := by
  refine ⟨should_send_history_eq s now c ty d p, ?_, ?_, rfl, rfl, ?_⟩
  · simp [get_stats, should_send_history_eq]
  · rw [rateWindow, should_send_window_eq, rateWindow, List.filter_filter]
    simp
  · intro hlk m
    set s1 := (should_send_alert s now c ty d p).1 with hs1
    have hist : dictLookup (alert_key c ty) s1.alert_history = none := by
      rw [hs1, should_send_history_eq]; exact hlk
    by_cases hr : (rateWindow s1 now2).length < s1.max_alerts_per_minute
    · rcases hcf : check_filters s1 d2 with _ | r
      · have hcd : cooldown_remaining s1 now2 (alert_key c ty) = none := by
          simp [cooldown_remaining, hist]
        rw [should_send_approved s1 now2 c ty d2 p2 hr hcf hcd]
        simp
      · rw [should_send_filter_blocked s1 now2 c ty d2 p2 r hr hcf]
        rcases check_filters_reason_shape s1 d2 r hcf with h | h | h <;>
          simp [h]
    · rw [should_send_rate_blocked s1 now2 c ty d2 p2 hr]
      simp

/-- C7 witness: from the fresh engine (no record for the key), two
evaluations of the same subject and kind without a commit in between do
not yield a cooldown reason on the second call. -/
theorem evaluate_commit_frame_witness :
    (should_send_alert
      (should_send_alert AlertOptimizer.init 0 "alpha" .pump
        ⟨5000000, 200000000, 2, 60⟩ .medium).1
      1 "alpha" .pump ⟨5000000, 200000000, 2, 60⟩ .medium).2.2 ≠
      .cooldownActive 5 :=
  (evaluate_commit_frame AlertOptimizer.init 0 1 "alpha" .pump
    ⟨5000000, 200000000, 2, 60⟩ ⟨5000000, 200000000, 2, 60⟩ .medium .medium
    2).2.2.2.2.2 (by decide) 5

/-- C8 counterexample: with 2 total checks and 1 alert sent, the reported
success rate is 50 — the approved/total ratio scaled by 100 — and not the
plain ratio 1/2 that the claim states. -/
theorem stats_reporting_counterexample :
    (get_stats { AlertOptimizer.init with
        stats := ⟨2, 1, 0, 0, 0⟩ }).success_rate = 50
  ∧ ¬ ((50 : ℚ) = 1 / 2) := by
  constructor
  · norm_num [get_stats]
  · norm_num

/-- C8 (amended): `get_stats` reports `success_rate` equal to the approved
count divided by the total-evaluations count multiplied by 100 (a
percentage) when total is non-zero, 0 when total is zero, and
`active_cooldowns` equal to the number of stored records. -/
theorem stats_reporting (s : AlertOptimizer) :
    (0 < s.stats.total_checks →
      (get_stats s).success_rate =
        (s.stats.alerts_sent : ℚ) / (s.stats.total_checks : ℚ) * 100)
  ∧ (s.stats.total_checks = 0 → (get_stats s).success_rate = 0)
  ∧ (get_stats s).active_cooldowns = s.alert_history.length := by
  refine ⟨?_, ?_, rfl⟩
  · intro h; simp [get_stats, h]
  · intro h; simp [get_stats, h]

/-- C8 witness: the percentage formula holds at a state with 2 checks and
1 sent alert. -/
theorem stats_reporting_witness :
    0 < ({ AlertOptimizer.init with
        stats := ⟨2, 1, 0, 0, 0⟩ } : AlertOptimizer).stats.total_checks
  ∧ (get_stats { AlertOptimizer.init with
        stats := ⟨2, 1, 0, 0, 0⟩ }).success_rate =
      ((({ AlertOptimizer.init with
          stats := ⟨2, 1, 0, 0, 0⟩ } : AlertOptimizer).stats.alerts_sent : ℚ) /
        (({ AlertOptimizer.init with
          stats := ⟨2, 1, 0, 0, 0⟩ } : AlertOptimizer).stats.total_checks : ℚ) * 100) :=
  ⟨by decide,
   (stats_reporting { AlertOptimizer.init with stats := ⟨2, 1, 0, 0, 0⟩ }).1
     (by decide)⟩

/-- C9 counterexample: a record whose timestamp equals the cutoff exactly
(timestamp 0, cleanup at time 3600 with max age 1 hour) is removed by
`cleanup_old_alerts` even though it is not strictly older than the
cutoff. -/
theorem cleanup_eviction_counterexample :
    (cleanup_old_alerts
      { AlertOptimizer.init with
          alert_history := [("btc_PUMP", ⟨"btc", .pump, 0, 1, .high⟩)] }
      3600 1).alert_history = []
  ∧ ¬ ((0 : ℚ) < 3600 - 1 * 3600) := by
  have h : ¬ ((3600 : ℚ) - 1 * 3600 < 0) := by norm_num
  refine ⟨?_, by norm_num⟩
  simp [cleanup_old_alerts, h]

/-- C9 (amended): `cleanup_old_alerts` removes exactly the records whose
timestamp is less than or equal to `now - max_age_hours*3600` (age at
least the threshold) and keeps exactly the strictly younger ones,
independent of suppression state; with max age 0 and every stored
timestamp at most `now`, the store is emptied. -/
theorem cleanup_eviction (s : AlertOptimizer) (now mah : ℚ) (key : String)
    (rec : AlertRecord) :
    (((key, rec) ∈ (cleanup_old_alerts s now mah).alert_history) ↔
      ((key, rec) ∈ s.alert_history ∧ now - mah * 3600 < rec.timestamp))
  ∧ ((∀ kv ∈ s.alert_history, kv.2.timestamp ≤ now) →
      (cleanup_old_alerts s now 0).alert_history = []) := by
  constructor
  · simp [cleanup_old_alerts, List.mem_filter]
  · intro h
    simp only [cleanup_old_alerts]
    apply List.filter_eq_nil_iff.mpr
    intro kv hkv
    have hle := h kv hkv
    simp only [decide_eq_true_eq, not_lt]
    calc kv.2.timestamp ≤ now := hle
      _ ≤ now - 0 * 3600 := by norm_num

/-- C9 witness: cleanup with max age 0 at time 10 empties a store holding
one record of timestamp 0. -/
theorem cleanup_eviction_witness :
    (cleanup_old_alerts
      { AlertOptimizer.init with
          alert_history := [("btc_PUMP", ⟨"btc", .pump, 0, 1, .high⟩)] }
      10 0).alert_history = [] :=
  (cleanup_eviction
    { AlertOptimizer.init with
        alert_history := [("btc_PUMP", ⟨"btc", .pump, 0, 1, .high⟩)] }
    10 0 "btc_PUMP" ⟨"btc", .pump, 0, 1, .high⟩).2
    (by intro kv hkv; fin_cases hkv; norm_num)

lemma eval_counters_step (s : AlertOptimizer) (now : ℚ) (c : String)
    (ty : AlertType) (d : CryptoData) (p : AlertPriority) :
    (should_send_alert s now c ty d p).1.stats.total_checks =
      s.stats.total_checks + 1
  ∧ (should_send_alert s now c ty d p).1.stats.alerts_blocked_rate_limit +
      (should_send_alert s now c ty d p).1.stats.alerts_blocked_filters +
      (should_send_alert s now c ty d p).1.stats.alerts_blocked_cooldown +
      (if (should_send_alert s now c ty d p).2.1 then 1 else 0) =
    s.stats.alerts_blocked_rate_limit + s.stats.alerts_blocked_filters +
      s.stats.alerts_blocked_cooldown + 1 := by
  by_cases hr : (rateWindow s now).length < s.max_alerts_per_minute
  · rcases hcf : check_filters s d with _ | r
    · rcases hcd : cooldown_remaining s now (alert_key c ty) with _ | rem
      · rw [should_send_approved s now c ty d p hr hcf hcd]
        exact ⟨rfl, rfl⟩
      · rw [should_send_cooldown_blocked s now c ty d p rem hr hcf hcd]
        exact ⟨rfl, by simp; omega⟩
    · rw [should_send_filter_blocked s now c ty d p r hr hcf]
      exact ⟨rfl, by simp; omega⟩
  · rw [should_send_rate_blocked s now c ty d p hr]
    exact ⟨rfl, by simp; omega⟩

lemma runOps_invariant : ∀ (ops : List Op) (s : AlertOptimizer) (a : Nat),
    s.stats.total_checks = s.stats.alerts_blocked_rate_limit +
      s.stats.alerts_blocked_filters + s.stats.alerts_blocked_cooldown + a →
    (ops.foldl stepOp (s, a)).1.stats.total_checks =
      (ops.foldl stepOp (s, a)).1.stats.alerts_blocked_rate_limit +
      (ops.foldl stepOp (s, a)).1.stats.alerts_blocked_filters +
      (ops.foldl stepOp (s, a)).1.stats.alerts_blocked_cooldown +
      (ops.foldl stepOp (s, a)).2 := by
  intro ops
  induction ops with
  | nil => intro s a h; simpa using h
  | cons op rest ih =>
      intro s a h
      rcases op with ⟨now, c, ty, d, p⟩ | ⟨now, c, ty, pr, p⟩ | ⟨now, mah⟩ | _
      · simp only [List.foldl_cons, stepOp]
        apply ih
        obtain ⟨h1, h2⟩ := eval_counters_step s now c ty d p
        by_cases hap : (should_send_alert s now c ty d p).2.1 = true
        · simp only [hap, if_true] at h2 ⊢
          omega
        · simp only [hap, if_false, Bool.not_eq_true] at h2 ⊢
          rw [if_neg (by simp [hap])] at h2
          rw [if_neg (by simp [hap])]
          omega
      · simp only [List.foldl_cons, stepOp]
        apply ih
        simpa [record_alert] using h
      · simp only [List.foldl_cons, stepOp]
        apply ih
        simpa [cleanup_old_alerts] using h
      · simp only [List.foldl_cons, stepOp]
        apply ih
        simp [reset_stats]

/-- C10: from any state whose four evaluation counters are zero (a fresh
engine or one just reset), after any sequence of evaluate, commit,
cleanup and reset operations, the total-evaluations counter equals the
sum of the three blocked counters plus the number of approved evaluate
calls since the last reset; commit and cleanup leave those four counters
untouched, and reset zeroes them all together. -/
theorem counter_consistency (s0 : AlertOptimizer) (ops : List Op)
    (h0 : s0.stats.total_checks = 0)
    (h1 : s0.stats.alerts_blocked_rate_limit = 0)
    (h2 : s0.stats.alerts_blocked_filters = 0)
    (h3 : s0.stats.alerts_blocked_cooldown = 0) :
    ((runOps s0 ops).1.stats.total_checks =
      (runOps s0 ops).1.stats.alerts_blocked_rate_limit +
      (runOps s0 ops).1.stats.alerts_blocked_filters +
      (runOps s0 ops).1.stats.alerts_blocked_cooldown +
      (runOps s0 ops).2)
  ∧ (∀ now c ty price p,
      ((record_alert s0 now c ty price p).stats.total_checks,
       (record_alert s0 now c ty price p).stats.alerts_blocked_rate_limit,
       (record_alert s0 now c ty price p).stats.alerts_blocked_filters,
       (record_alert s0 now c ty price p).stats.alerts_blocked_cooldown) =
      (s0.stats.total_checks, s0.stats.alerts_blocked_rate_limit,
       s0.stats.alerts_blocked_filters, s0.stats.alerts_blocked_cooldown))
  ∧ (∀ now mah, (cleanup_old_alerts s0 now mah).stats = s0.stats)
  ∧ (reset_stats s0).stats = ⟨0, 0, 0, 0, 0⟩ := by
  refine ⟨?_, fun _ _ _ _ _ => rfl, fun _ _ => rfl, rfl⟩
  apply runOps_invariant
  omega

/-- C10 witness: the invariant holds for the fresh engine running one
approved evaluation, a commit, a second (cooldown-free) evaluation and a
reset. -/
theorem counter_consistency_witness :
    AlertOptimizer.init.stats.total_checks = 0
  ∧ ((runOps AlertOptimizer.init
        [.eval 0 "alpha" .pump ⟨5000000, 200000000, 2, 60⟩ .medium,
         .commit 0 "alpha" .pump 2 .medium,
         .reset]).1.stats.total_checks =
      (runOps AlertOptimizer.init
        [.eval 0 "alpha" .pump ⟨5000000, 200000000, 2, 60⟩ .medium,
         .commit 0 "alpha" .pump 2 .medium,
         .reset]).1.stats.alerts_blocked_rate_limit +
      (runOps AlertOptimizer.init
        [.eval 0 "alpha" .pump ⟨5000000, 200000000, 2, 60⟩ .medium,
         .commit 0 "alpha" .pump 2 .medium,
         .reset]).1.stats.alerts_blocked_filters +
      (runOps AlertOptimizer.init
        [.eval 0 "alpha" .pump ⟨5000000, 200000000, 2, 60⟩ .medium,
         .commit 0 "alpha" .pump 2 .medium,
         .reset]).1.stats.alerts_blocked_cooldown +
      (runOps AlertOptimizer.init
        [.eval 0 "alpha" .pump ⟨5000000, 200000000, 2, 60⟩ .medium,
         .commit 0 "alpha" .pump 2 .medium,
         .reset]).2) :=
  ⟨rfl,
   (counter_consistency AlertOptimizer.init
     [.eval 0 "alpha" .pump ⟨5000000, 200000000, 2, 60⟩ .medium,
      .commit 0 "alpha" .pump 2 .medium,
      .reset] rfl rfl rfl rfl).1⟩

end CryptoAlert
